import Mathlib

/-!
Verification of the `chinta` repository: a daemonizing process
(`src/chinta/src/daemon.cpp`) and an abstract HTTP service shell
(`src/lib/http/include/service/server.hpp`).

The daemon code is embedded shallowly: each POSIX call the program makes is
recorded as an `Action` in a trace, and the program's control flow is a pure
function of the results the OS returns for `fork`, `setsid` and `chdir`.
The detached phase (signal handlers installed, infinite heartbeat loop) is a
small-step machine driven by events (loop ticks and asynchronous signals).
-/

namespace Daemon

/-- POSIX constants used by `daemon.cpp` (Linux values). -/
def SIGINT : Int := 2

/-- Signal number of SIGTERM on Linux. -/
def SIGTERM : Int := 15

/-- `EXIT_SUCCESS` from `<stdlib.h>`. -/
def EXIT_SUCCESS : Nat := 0

/-- `EXIT_FAILURE` from `<stdlib.h>`. -/
def EXIT_FAILURE : Nat := 1

/-- `STDIN_FILENO`. -/
def STDIN_FILENO : Nat := 0

/-- `STDOUT_FILENO`. -/
def STDOUT_FILENO : Nat := 1

/-- `STDERR_FILENO`. -/
def STDERR_FILENO : Nat := 2

/-- The sleep interval of the main loop: `sleep(5)` in `daemon.cpp` line 57. -/
def SLEEP_INTERVAL : Nat := 5

/-- One observable OS-level action performed by `daemon.cpp`, in program
order.  Each constructor corresponds to one call site in the source. -/
inductive Action where
  | fork : Action
  | setsid : Action
  | chdir (path : String) : Action
  | closeFd (fd : Nat) : Action
  | openlog (ident : String) : Action
  | syslog (msg : String) : Action
  | closelog : Action
  | installHandler (signum : Int) : Action
  | sleep (seconds : Nat) : Action
  deriving DecidableEq, Repr

/-- Embedding of `signal_handler` (daemon.cpp lines 7-13): given the delivered
signal number, the list of actions the handler performs and, if it calls
`exit`, the exit status.  For `SIGTERM` and `SIGINT` it logs, closes the log
and exits with status 0; for every other signal it does nothing. -/
def signal_handler (signum : Int) : List Action × Option Nat :=
  if signum = SIGTERM ∨ signum = SIGINT then
    ([Action.syslog "Daemon received signal, exiting.", Action.closelog], some 0)
  else
    ([], none)

/-- The results the OS returns for the three fallible calls made during
daemonization.  `fork` returns a negative value on failure, `0` in the child
and the child's pid (positive) in the parent; `setsid` and `chdir` return a
negative value on failure. -/
structure OsEnv where
  forkResult : Int
  setsidResult : Int
  chdirResult : Int
  deriving Repr

/-- Outcome of the daemonization prefix of `main`: either the process called
`exit status` after performing `trace`, or it reached the main loop after
performing `trace`. -/
inductive SetupOutcome where
  | exited (status : Nat) (trace : List Action) : SetupOutcome
  | enteredLoop (trace : List Action) : SetupOutcome
  deriving DecidableEq, Repr

/-- Embedding of `main` up to the main loop (daemon.cpp lines 15-51), as a
function of the OS results: fork (parent exits `EXIT_SUCCESS`, failure exits
`EXIT_FAILURE`), then in the child `setsid`, `chdir("/")`, closing fds 0,1,2,
opening syslog, logging the start record and installing the handlers. -/
def mainSetup (env : OsEnv) : SetupOutcome :=
  if env.forkResult < 0 then
    SetupOutcome.exited EXIT_FAILURE [Action.fork]
  else if env.forkResult > 0 then
    SetupOutcome.exited EXIT_SUCCESS [Action.fork]
  else if env.setsidResult < 0 then
    SetupOutcome.exited EXIT_FAILURE [Action.fork, Action.setsid]
  else if env.chdirResult < 0 then
    SetupOutcome.exited EXIT_FAILURE [Action.fork, Action.setsid, Action.chdir "/"]
  else
    SetupOutcome.enteredLoop
      [Action.fork, Action.setsid, Action.chdir "/",
       Action.closeFd STDIN_FILENO, Action.closeFd STDOUT_FILENO,
       Action.closeFd STDERR_FILENO,
       Action.openlog "my_daemon", Action.syslog "Daemon started.",
       Action.installHandler SIGTERM, Action.installHandler SIGINT]

/-- The actions of one iteration of the main loop (daemon.cpp lines 54-58):
one heartbeat record, then `sleep(5)`. -/
def loopIteration : List Action :=
  [Action.syslog "Daemon is running...", Action.sleep SLEEP_INTERVAL]

/-- Control location of the detached process.  `inLoop` is the top of the
`while (true)` loop; `afterLoop` is the code after the loop
(`closelog(); return 0;`, daemon.cpp lines 60-61), which exists in the source
but is never reached because the loop has no exit condition. -/
inductive Phase where
  | inLoop : Phase
  | afterLoop : Phase
  deriving DecidableEq, Repr

/-- State of the detached daemon process: control location, accumulated
action trace, and the exit status if the process has exited. -/
structure DaemonState where
  phase : Phase
  trace : List Action
  exited : Option Nat
  deriving DecidableEq, Repr

/-- The state in which the daemon enters the main loop. -/
def initDetached (setupTrace : List Action) : DaemonState :=
  { phase := Phase.inLoop, trace := setupTrace, exited := none }

/-- An event interleaved with the detached process: either the process runs
the code at its current control location (`tick`), or a signal is delivered
asynchronously and the installed `signal_handler` runs (`signal`). -/
inductive Event where
  | tick : Event
  | signal (signum : Int) : Event
  deriving DecidableEq, Repr

/-- Small-step semantics of the detached phase.  A `tick` at `inLoop` runs
one loop body and returns to `inLoop` (the loop is `while (true)` with no
break); a `tick` at `afterLoop` would run `closelog(); return 0;`.  A
`signal` event runs `signal_handler`, appending its actions and adopting its
exit status if it exits.  An exited process takes no further steps. -/
def step (s : DaemonState) (e : Event) : DaemonState :=
  match s.exited with
  | some _ => s
  | none =>
    match e with
    | Event.tick =>
      match s.phase with
      | Phase.inLoop =>
        { s with trace := s.trace ++ loopIteration }
      | Phase.afterLoop =>
        { s with trace := s.trace ++ [Action.closelog], exited := some 0 }
    | Event.signal signum =>
      let h := signal_handler signum
      { s with trace := s.trace ++ h.1, exited := h.2 }

/-- Run the detached process over a list of events. -/
def run (s : DaemonState) (es : List Event) : DaemonState :=
  es.foldl step s

end Daemon

namespace Service

/-- Modelled from the spec: error taxonomy of §7 for the RoutableService.
The repository ships only the declaration of `HttpServer`
(`src/lib/http/include/service/server.hpp`); its member definitions
(constructor, `add_route`, `start`, `stop`) are missing, so the behaviour is
modelled from the spec's contract in §4.2. -/
inductive SvcError where
  | ConfigurationError : SvcError
  | LifecycleError : SvcError
  | BindError : SvcError
  deriving DecidableEq, Repr

/-- Modelled from the spec: the recognized HTTP verbs a route key may use.
The spec requires `method` to be "one of the recognized HTTP verbs". -/
def recognizedMethods : List String :=
  ["GET", "POST", "PUT", "DELETE", "HEAD", "OPTIONS", "PATCH"]

/-- Modelled from the spec: the state of a `RoutableService`
(the abstract base declared as `HttpServer` in `server.hpp`, whose member
definitions are missing from the repository).  The route registry maps a
(path, method) key to an opaque handler capability, represented by an
identifier; `running` is true between `start()` and `stop()`;
`endpointOpen` is true while the listening endpoint is bound. -/
structure RoutableService where
  bindAddress : String
  bindPort : Nat
  routes : List ((String × String) × Nat)
  running : Bool
  endpointOpen : Bool
  deriving DecidableEq, Repr

/-- Modelled from the spec: `construct(bindAddress, bindPort)` — validates
that the address is non-empty and the port is in the valid range
(1..65535); fails with `ConfigurationError` otherwise; does not yet bind a
socket (the endpoint stays closed and the service is not running). -/
def construct (bindAddress : String) (bindPort : Nat) :
    Except SvcError RoutableService :=
  if bindAddress = "" then
    Except.error SvcError.ConfigurationError
  else if bindPort = 0 ∨ 65535 < bindPort then
    Except.error SvcError.ConfigurationError
  else
    Except.ok
      { bindAddress := bindAddress, bindPort := bindPort,
        routes := [], running := false, endpointOpen := false }

/-- Modelled from the spec: `registerRoute(path, method, handler)`
(declared as `HttpServer::add_route` in `server.hpp`, definition missing) —
must only be called before `start()`: after `start()` it fails with
`LifecycleError` and the request is rejected, leaving the service state
unchanged.  Before `start()`, an empty path or an unrecognized method fails
with `ConfigurationError`; otherwise the entry is added to the registry. -/
def registerRoute (s : RoutableService) (path method : String)
    (handler : Nat) : RoutableService × Option SvcError :=
  if s.running then
    (s, some SvcError.LifecycleError)
  else if path = "" ∨ recognizedMethods.contains method = false then
    (s, some SvcError.ConfigurationError)
  else
    ({ s with routes := s.routes ++ [((path, method), handler)] }, none)

/-- Modelled from the spec: `start()` — binds and opens the listening
endpoint (after the subclass setup hook has populated the registry) and
marks the service running; fails with `BindError`, leaving the state
unchanged, when the environment reports the endpoint cannot be opened. -/
def start (s : RoutableService) (bindFails : Bool) :
    Except SvcError RoutableService :=
  if bindFails then
    Except.error SvcError.BindError
  else
    Except.ok { s with running := true, endpointOpen := true }

/-- Modelled from the spec: `stop()` — requests the endpoint close and the
service to leave the running state.  Idempotent: calling it multiple times,
or before `start()`, has no additional effect beyond the first. -/
def stop (s : RoutableService) : RoutableService :=
  { s with running := false, endpointOpen := false }

end Service

open Daemon Service

/-- The full action trace of a successful daemonization, as emitted by
`mainSetup` on the child-process success path. -/
def successSetupTrace : List Action :=
  [Action.fork, Action.setsid, Action.chdir "/",
   Action.closeFd STDIN_FILENO, Action.closeFd STDOUT_FILENO,
   Action.closeFd STDERR_FILENO,
   Action.openlog "my_daemon", Action.syslog "Daemon started.",
   Action.installHandler SIGTERM, Action.installHandler SIGINT]

/-- C1: on every successful daemonization the child performs, in this order,
fork, then setsid (new session), then chdir to the filesystem root, then
closes standard input, output and error; the parent process (positive fork
result) exits immediately with success after the fork. -/
theorem claim_C1_daemonization_order (env : OsEnv)
    (hchild : env.forkResult = 0) (hsetsid : 0 ≤ env.setsidResult)
    (hchdir : 0 ≤ env.chdirResult) (penv : OsEnv)
    (hparent : 0 < penv.forkResult) :
    mainSetup env = SetupOutcome.enteredLoop successSetupTrace ∧
    mainSetup penv = SetupOutcome.exited EXIT_SUCCESS [Action.fork] := by
  constructor
  · rw [mainSetup, if_neg (by omega), if_neg (by omega), if_neg (by omega),
      if_neg (by omega)]
    rfl
  · rw [mainSetup, if_neg (by omega), if_pos (by omega)]

/-- Witness for C1 at concrete OS results: fork returns 0 (child), setsid
and chdir succeed; a parent sees fork result 1234. -/
theorem claim_C1_witness :
    mainSetup ⟨0, 0, 0⟩ = SetupOutcome.enteredLoop successSetupTrace ∧
    mainSetup ⟨1234, 0, 0⟩ = SetupOutcome.exited EXIT_SUCCESS [Action.fork] :=
  claim_C1_daemonization_order ⟨0, 0, 0⟩ rfl (by decide) (by decide)
    ⟨1234, 0, 0⟩ (by decide)

/-- C2 counterexample: the claim says the termination-signal handler never
closes the log and never exits inside the handler; but `signal_handler` on
SIGTERM itself closes the log and calls exit with status 0 (and records no
flag: the handler communicates nothing to the loop). -/
theorem claim_C2_counterexample :
    (signal_handler SIGTERM).1.contains Action.closelog = true ∧
    (signal_handler SIGTERM).2 = some 0 := by
  decide

/-- C2 amended: the termination-signal handler performs the shutdown itself:
on SIGTERM or SIGINT it writes a log record, closes the log and exits with
status 0 inside the handler; no flag shared with the work loop exists and the
normal execution context performs no part of the shutdown. -/
theorem claim_C2_amended_handler_shutdown (signum : Int)
    (h : signum = SIGTERM ∨ signum = SIGINT) :
    signal_handler signum =
      ([Action.syslog "Daemon received signal, exiting.", Action.closelog],
       some 0) := by
  rw [signal_handler, if_pos h]

/-- Witness for the amended C2 at signal SIGTERM. -/
theorem claim_C2_amended_witness :
    signal_handler SIGTERM =
      ([Action.syslog "Daemon received signal, exiting.", Action.closelog],
       some 0) :=
  claim_C2_amended_handler_shutdown SIGTERM (Or.inl rfl)

/-- C3 counterexample: the claim says the three daemonization failures exit
with statuses distinct from each other; but fork failure, setsid failure and
chdir failure all exit with the same status EXIT_FAILURE = 1. -/
theorem claim_C3_counterexample :
    mainSetup ⟨-1, 0, 0⟩ = SetupOutcome.exited 1 [Action.fork] ∧
    mainSetup ⟨0, -1, 0⟩ =
      SetupOutcome.exited 1 [Action.fork, Action.setsid] ∧
    mainSetup ⟨0, 0, -1⟩ =
      SetupOutcome.exited 1 [Action.fork, Action.setsid, Action.chdir "/"] := by
  decide

/-- C3 amended: fork failure, session-creation failure and
working-directory-change failure each terminate the process with the same
non-zero exit status EXIT_FAILURE (1), and none of the three is retried: the
failure trace contains exactly one attempt of each call made. -/
theorem claim_C3_amended_failure_exits (env : OsEnv) :
    (env.forkResult < 0 →
      mainSetup env = SetupOutcome.exited EXIT_FAILURE [Action.fork]) ∧
    (env.forkResult = 0 → env.setsidResult < 0 →
      mainSetup env =
        SetupOutcome.exited EXIT_FAILURE [Action.fork, Action.setsid]) ∧
    (env.forkResult = 0 → 0 ≤ env.setsidResult → env.chdirResult < 0 →
      mainSetup env =
        SetupOutcome.exited EXIT_FAILURE
          [Action.fork, Action.setsid, Action.chdir "/"]) ∧
    EXIT_FAILURE ≠ 0 := by
  refine ⟨?_, ?_, ?_, by decide⟩
  · intro h
    rw [mainSetup, if_pos h]
  · intro h1 h2
    rw [mainSetup, if_neg (by omega), if_neg (by omega), if_pos h2]
  · intro h1 h2 h3
    rw [mainSetup, if_neg (by omega), if_neg (by omega), if_neg (by omega),
      if_pos h3]

/-- Witness for the amended C3 at a concrete fork failure. -/
theorem claim_C3_amended_witness :
    mainSetup ⟨-1, 0, 0⟩ =
      SetupOutcome.exited EXIT_FAILURE [Action.fork] :=
  (claim_C3_amended_failure_exits ⟨-1, 0, 0⟩).1 (by decide)

/-- Unfolding one event from a run. -/
theorem run_cons (s : DaemonState) (e : Event) (es : List Event) :
    run s (e :: es) = run (step s e) es := rfl

/-- A step never changes the control location: no branch of `step` assigns
`phase`, reflecting that the source loop is `while (true)` with no break and
the handler does not alter control flow short of exiting. -/
theorem step_phase_eq (s : DaemonState) (e : Event) :
    (step s e).phase = s.phase := by
  cases s with
  | mk p t ex =>
    cases ex with
    | some st => rfl
    | none =>
      cases e with
      | tick => cases p <;> rfl
      | signal signum => rfl

/-- An exited process takes no further steps. -/
theorem step_exited_eq (s : DaemonState) (st : Nat) (h : s.exited = some st)
    (e : Event) : step s e = s := by
  cases s with
  | mk p t ex =>
    simp only at h
    subst h
    rfl

/-- An exited process is unchanged by any further events. -/
theorem run_exited_eq (s : DaemonState) (st : Nat) (h : s.exited = some st)
    (es : List Event) : run s es = s := by
  induction es with
  | nil => rfl
  | cons e es ih =>
    rw [run_cons, step_exited_eq s st h e]
    exact ih

/-- Running any event sequence never changes the control location. -/
theorem run_phase_eq (es : List Event) :
    ∀ s : DaemonState, (run s es).phase = s.phase := by
  induction es with
  | nil => intro s; rfl
  | cons e es ih =>
    intro s
    rw [run_cons]
    exact (ih (step s e)).trans (step_phase_eq s e)

/-- A live process at the top of the loop runs one loop body on a tick. -/
theorem step_tick_inLoop (s : DaemonState) (hl : s.exited = none)
    (hp : s.phase = Phase.inLoop) :
    step s Event.tick = { s with trace := s.trace ++ loopIteration } := by
  cases s with
  | mk p t ex =>
    simp only at hl hp
    subst hl; subst hp
    rfl

/-- Running `n` loop ticks from the loop entry appends exactly `n` copies of
the loop iteration and leaves the process live at the top of the loop. -/
theorem run_ticks_eq (n : Nat) :
    ∀ t : List Action,
      run (initDetached t) (List.replicate n Event.tick) =
        initDetached (t ++ (List.replicate n loopIteration).flatten) := by
  induction n with
  | zero => intro t; simp [run, initDetached]
  | succ n ih =>
    intro t
    rw [List.replicate_succ, run_cons,
      step_tick_inLoop (initDetached t) rfl rfl]
    have hinit : { initDetached t with
        trace := (initDetached t).trace ++ loopIteration } =
        initDetached (t ++ loopIteration) := rfl
    rw [hinit, ih (t ++ loopIteration), List.replicate_succ,
      List.flatten_cons, List.append_assoc]

/-- If a live process at the top of the loop ever exits during an event
sequence, the exit status is 0 and some delivered event was a SIGTERM or
SIGINT signal (only the handler exits). -/
theorem run_exit_only_by_signal (es : List Event) :
    ∀ s : DaemonState, s.exited = none → s.phase = Phase.inLoop → ∀ st : Nat,
      (run s es).exited = some st →
      st = 0 ∧ ∃ signum, Event.signal signum ∈ es ∧
        (signum = SIGTERM ∨ signum = SIGINT) := by
  induction es with
  | nil =>
    intro s hl hp st h
    rw [run, List.foldl_nil, hl] at h
    exact absurd h (by simp)
  | cons e es ih =>
    intro s hl hp st h
    rw [run_cons] at h
    cases e with
    | tick =>
      rw [step_tick_inLoop s hl hp] at h
      obtain ⟨h0, signum, hmem, hsig⟩ := ih _ (by simp [hl]) (by simp [hp]) st h
      exact ⟨h0, signum, List.mem_cons_of_mem _ hmem, hsig⟩
    | signal signum =>
      by_cases hterm : signum = SIGTERM ∨ signum = SIGINT
      · have hs : step s (Event.signal signum) =
            { s with
              trace := s.trace ++
                [Action.syslog "Daemon received signal, exiting.", Action.closelog],
              exited := some 0 } := by
          cases s with
          | mk p t ex =>
            simp only at hl
            subst hl
            have hsh : signal_handler signum =
                ([Action.syslog "Daemon received signal, exiting.",
                  Action.closelog], some 0) := by
              rw [signal_handler, if_pos hterm]
            calc step ⟨p, t, none⟩ (Event.signal signum)
                = ⟨p, t ++ (signal_handler signum).1,
                    (signal_handler signum).2⟩ := rfl
              _ = _ := by rw [hsh]
        rw [hs, run_exited_eq _ 0 rfl es] at h
        simp only [Option.some.injEq] at h
        exact ⟨h.symm, signum, List.mem_cons_self _ _, hterm⟩
      · have hs : step s (Event.signal signum) = s := by
          cases s with
          | mk p t ex =>
            simp only at hl
            subst hl
            simp [step, signal_handler, if_neg hterm]
        rw [hs] at h
        obtain ⟨h0, s2, hmem, hsig⟩ := ih s hl hp st h
        exact ⟨h0, s2, List.mem_cons_of_mem _ hmem, hsig⟩

/-- C4: delivering SIGINT or SIGTERM to a live detached process makes it
exit with status 0 in that very step: the handler appends only its two
shutdown actions — no further heartbeat and no further sleep occur between
delivery and exit, so the exit happens within one heartbeat interval. -/
theorem claim_C4_signal_exits_promptly (s : DaemonState)
    (hl : s.exited = none) (signum : Int)
    (hsig : signum = SIGTERM ∨ signum = SIGINT) :
    (step s (Event.signal signum)).exited = some 0 ∧
    (step s (Event.signal signum)).trace =
      s.trace ++
        [Action.syslog "Daemon received signal, exiting.", Action.closelog] ∧
    Action.sleep SLEEP_INTERVAL ∉
      [Action.syslog "Daemon received signal, exiting.", Action.closelog] ∧
    Action.syslog "Daemon is running..." ∉
      [Action.syslog "Daemon received signal, exiting.", Action.closelog] := by
  cases s with
  | mk p t ex =>
    simp only at hl
    subst hl
    have hsh : signal_handler signum =
        ([Action.syslog "Daemon received signal, exiting.",
          Action.closelog], some 0) := by
      rw [signal_handler, if_pos hsig]
    refine ⟨?_, ?_, by decide, by decide⟩
    · show (signal_handler signum).2 = some 0
      rw [hsh]
    · show t ++ (signal_handler signum).1 = _
      rw [hsh]

/-- Witness for C4: the state at loop entry receives SIGINT. -/
theorem claim_C4_witness :
    (step ⟨Phase.inLoop, [], none⟩ (Event.signal SIGINT)).exited = some 0 ∧
    (step ⟨Phase.inLoop, [], none⟩ (Event.signal SIGINT)).trace =
      [] ++
        [Action.syslog "Daemon received signal, exiting.", Action.closelog] ∧
    Action.sleep SLEEP_INTERVAL ∉
      [Action.syslog "Daemon received signal, exiting.", Action.closelog] ∧
    Action.syslog "Daemon is running..." ∉
      [Action.syslog "Daemon received signal, exiting.", Action.closelog] :=
  claim_C4_signal_exits_promptly ⟨Phase.inLoop, [], none⟩ rfl SIGINT
    (Or.inr rfl)

/-- C5: from loop entry the service loop repeats the cycle — one heartbeat
record then one sleep of the fixed interval (5) — once per tick, staying
live at the top of the loop; once the process has exited (Terminating
observed), a tick performs no further cycle. -/
theorem claim_C5_service_loop (t : List Action) (n : Nat) (s : DaemonState)
    (st : Nat) (hterm : s.exited = some st) :
    run (initDetached t) (List.replicate n Event.tick) =
      initDetached (t ++ (List.replicate n loopIteration).flatten) ∧
    loopIteration =
      [Action.syslog "Daemon is running...", Action.sleep SLEEP_INTERVAL] ∧
    SLEEP_INTERVAL = 5 ∧
    step s Event.tick = s :=
  ⟨run_ticks_eq n t, rfl, rfl, step_exited_eq s st hterm Event.tick⟩

/-- Witness for C5: two ticks from an empty trace, and a tick on an exited
state. -/
theorem claim_C5_witness :
    run (initDetached []) (List.replicate 2 Event.tick) =
      initDetached ([] ++ (List.replicate 2 loopIteration).flatten) ∧
    loopIteration =
      [Action.syslog "Daemon is running...", Action.sleep SLEEP_INTERVAL] ∧
    SLEEP_INTERVAL = 5 ∧
    step ⟨Phase.inLoop, [], some 0⟩ Event.tick =
      ⟨Phase.inLoop, [], some 0⟩ :=
  claim_C5_service_loop [] 2 ⟨Phase.inLoop, [], some 0⟩ 0 rfl

/-- C9: a signal other than SIGTERM and SIGINT makes the handler return
without any action — no log record, no closelog, no exit — and the daemon
state is entirely unchanged. -/
theorem claim_C9_other_signals_no_effect (signum : Int)
    (h1 : signum ≠ SIGTERM) (h2 : signum ≠ SIGINT) (s : DaemonState) :
    signal_handler signum = ([], none) ∧
    step s (Event.signal signum) = s := by
  have hsh : signal_handler signum = ([], none) := by
    rw [signal_handler, if_neg (by tauto)]
  refine ⟨hsh, ?_⟩
  cases s with
  | mk p t ex =>
    cases ex with
    | some st => rfl
    | none =>
      calc step ⟨p, t, none⟩ (Event.signal signum)
          = ⟨p, t ++ (signal_handler signum).1,
              (signal_handler signum).2⟩ := rfl
        _ = ⟨p, t, none⟩ := by rw [hsh]; simp

/-- Witness for C9 at signal 1 (SIGHUP) and the loop-entry state. -/
theorem claim_C9_witness :
    signal_handler 1 = ([], none) ∧
    step ⟨Phase.inLoop, [], none⟩ (Event.signal 1) =
      ⟨Phase.inLoop, [], none⟩ :=
  claim_C9_other_signals_no_effect 1 (by decide) (by decide)
    ⟨Phase.inLoop, [], none⟩

/-- C10: the main loop has no exit condition: over any event sequence, the
control location stays at the top of the loop (the post-loop closelog and
return-0 statements never execute), and if the process exits at all, the
status is 0 and some delivered SIGTERM or SIGINT drove the handler to exit. -/
theorem claim_C10_loop_never_returns (t : List Action) (es : List Event)
    (st : Nat) :
    (run (initDetached t) es).phase = Phase.inLoop ∧
    ((run (initDetached t) es).exited = some st →
      st = 0 ∧ ∃ signum, Event.signal signum ∈ es ∧
        (signum = SIGTERM ∨ signum = SIGINT)) :=
  ⟨run_phase_eq es (initDetached t),
   fun h => run_exit_only_by_signal es (initDetached t) rfl rfl st h⟩

/-- Witness for C10: one tick then a SIGTERM delivery. -/
theorem claim_C10_witness :
    (run (initDetached []) [Event.tick, Event.signal 15]).phase =
      Phase.inLoop ∧
    (0 = 0 ∧ ∃ signum,
      Event.signal signum ∈ [Event.tick, Event.signal 15] ∧
      (signum = SIGTERM ∨ signum = SIGINT)) :=
  ⟨(claim_C10_loop_never_returns [] [Event.tick, Event.signal 15] 0).1,
   (claim_C10_loop_never_returns [] [Event.tick, Event.signal 15] 0).2
     (by decide)⟩

/-- C6: a route registration attempted while the service is running fails
with a LifecycleError and is rejected: the service state — in particular the
open endpoint — is returned unchanged; a registration performed before
start, with a non-empty path and a recognized method, is accepted into the
registry. -/
theorem claim_C6_register_after_start (s : RoutableService)
    (hrun : s.running = true) (p m : String) (hdl : Nat)
    (t : RoutableService) (hnot : t.running = false) (p2 m2 : String)
    (hdl2 : Nat) (hp2 : p2 ≠ "")
    (hm2 : recognizedMethods.contains m2 = true) :
    registerRoute s p m hdl = (s, some SvcError.LifecycleError) ∧
    (registerRoute s p m hdl).1.endpointOpen = s.endpointOpen ∧
    registerRoute t p2 m2 hdl2 =
      ({ t with routes := t.routes ++ [((p2, m2), hdl2)] }, none) := by
  have h1 : registerRoute s p m hdl = (s, some SvcError.LifecycleError) := by
    rw [registerRoute, if_pos hrun]
  refine ⟨h1, by rw [h1], ?_⟩
  rw [registerRoute, if_neg (by rw [hnot]; exact Bool.false_ne_true),
    if_neg (by rw [hm2]; tauto)]

/-- Witness for C6: a running service rejects a registration and keeps its
endpoint open; a stopped service accepts one. -/
theorem claim_C6_witness :
    registerRoute ⟨"0.0.0.0", 8080, [], true, true⟩ "/health" "GET" 7 =
      (⟨"0.0.0.0", 8080, [], true, true⟩, some SvcError.LifecycleError) ∧
    (registerRoute ⟨"0.0.0.0", 8080, [], true, true⟩ "/health" "GET" 7).1.endpointOpen =
      (⟨"0.0.0.0", 8080, [], true, true⟩ : RoutableService).endpointOpen ∧
    registerRoute ⟨"0.0.0.0", 8080, [], false, false⟩ "/health" "GET" 7 =
      (⟨"0.0.0.0", 8080, [(("/health", "GET"), 7)], false, false⟩, none) :=
  claim_C6_register_after_start ⟨"0.0.0.0", 8080, [], true, true⟩ rfl
    "/health" "GET" 7 ⟨"0.0.0.0", 8080, [], false, false⟩ rfl "/health"
    "GET" 7 (by decide) (by decide)

/-- C7: construction validates its parameters: an empty bind address fails
with a ConfigurationError before any endpoint is opened, and every
successful construction has a non-empty address, a port in the valid range,
and a service that is not running and has not bound a socket. -/
theorem claim_C7_construct_validates (port : Nat) (addr : String)
    (port2 : Nat) (s : RoutableService)
    (hok : construct addr port2 = Except.ok s) :
    construct "" port = Except.error SvcError.ConfigurationError ∧
    s.running = false ∧ s.endpointOpen = false ∧ addr ≠ "" ∧
    1 ≤ port2 ∧ port2 ≤ 65535 := by
  have hempty : construct "" port = Except.error SvcError.ConfigurationError := by
    rw [construct, if_pos rfl]
  rw [construct] at hok
  by_cases h1 : addr = ""
  · rw [if_pos h1] at hok
    exact Except.noConfusion hok
  · rw [if_neg h1] at hok
    by_cases h2 : port2 = 0 ∨ 65535 < port2
    · rw [if_pos h2] at hok
      exact Except.noConfusion hok
    · rw [if_neg h2] at hok
      injection hok with hok
      subst hok
      exact ⟨hempty, rfl, rfl, h1, by omega, by omega⟩

/-- Witness for C7: constructing with address 0.0.0.0 and port 8080
succeeds unbound; the empty address fails. -/
theorem claim_C7_witness :
    construct "" 8080 = Except.error SvcError.ConfigurationError ∧
    (⟨"0.0.0.0", 8080, [], false, false⟩ : RoutableService).running = false ∧
    (⟨"0.0.0.0", 8080, [], false, false⟩ : RoutableService).endpointOpen = false ∧
    "0.0.0.0" ≠ "" ∧ 1 ≤ 8080 ∧ 8080 ≤ 65535 :=
  claim_C7_construct_validates 8080 "0.0.0.0" 8080
    ⟨"0.0.0.0", 8080, [], false, false⟩ (by rfl)

/-- C8: stop is idempotent: stopping twice yields exactly the state of
stopping once, and stopping a service that was never started (not running,
endpoint closed) leaves it unchanged. -/
theorem claim_C8_stop_idempotent (s f : RoutableService)
    (hrun : f.running = false) (hep : f.endpointOpen = false) :
    Service.stop (Service.stop s) = Service.stop s ∧ Service.stop f = f := by
  constructor
  · rfl
  · cases f with
    | mk a p r run ep =>
      simp only at hrun hep
      subst hrun; subst hep
      rfl

/-- Witness for C8 on a concrete running service and a concrete fresh one. -/
theorem claim_C8_witness :
    Service.stop (Service.stop ⟨"0.0.0.0", 8080, [], true, true⟩) =
      Service.stop ⟨"0.0.0.0", 8080, [], true, true⟩ ∧
    Service.stop ⟨"0.0.0.0", 8080, [], false, false⟩ =
      ⟨"0.0.0.0", 8080, [], false, false⟩ :=
  claim_C8_stop_idempotent ⟨"0.0.0.0", 8080, [], true, true⟩
    ⟨"0.0.0.0", 8080, [], false, false⟩ rfl rfl
